import Mathlib

/-!
Verification of `sf-utils` (`src/media-type.js`): a shallow embedding of the
media-type sorting and matching logic for HTTP structured-field items.

JavaScript values are modelled as follows: bare items (the values stored in
an item's parameter map and the bare token of the item) are a tagged variant
of string, number, boolean and token; JS numbers are modelled as exact
rationals (structured-field decimals carry at most three fractional digits,
where float and rational arithmetic agree); JS `Map` objects are association
lists in insertion order; JS `undefined` is `Option.none`; a thrown
`TypeError` is the `thrown` result constructor.
-/

namespace SfUtils

/-- A structured-field bare item: string, number, boolean or token. -/
inductive BareItem where
  | str (s : String)
  | num (q : ℚ)
  | bool (b : Bool)
  | tok (s : String)
deriving DecidableEq, Repr

/-- A JS `Map` of parameters, as an association list in insertion order. -/
abbrev Params := List (String × BareItem)

/-- A structured-field item `[bareItem, parameters]` as consumed by
`sort` and `match`. -/
abbrev Item := BareItem × Params

/-- JS `Map.prototype.get`: the value stored at `k`, or `undefined`. -/
def mapGet (m : Params) (k : String) : Option BareItem :=
  (m.find? (fun e => e.1 = k)).map (fun e => e.2)

/-- JS `Map.prototype.has`. -/
def mapHas (m : Params) (k : String) : Bool :=
  m.any (fun e => e.1 = k)

/-- JS `Map.prototype.keys` (insertion order). -/
def mapKeys (m : Params) : List String :=
  m.map (fun e => e.1)

/-- JS `Map.prototype.size`. -/
def mapSize (m : Params) : Nat :=
  m.length

/-- JS `Map.prototype.set`: overwrite an existing key or append a new entry. -/
def mapSet (m : Params) (k : String) (v : BareItem) : Params :=
  if m.any (fun e => e.1 = k) then
    m.map (fun e => if e.1 = k then (k, v) else e)
  else
    m ++ [(k, v)]

/-- Decimal digit characters to a natural number (empty list gives 0,
matching JS where the missing part of `1.` or `.5` contributes zero). -/
def digitsVal (cs : List Char) : Nat :=
  cs.foldl (fun acc c => acc * 10 + (c.toNat - 48)) 0

/-- JS whitespace for `Number` conversion, modelled over the common
whitespace code points (tab through carriage return, space, no-break
space, line/paragraph separator, BOM). -/
def isJsSpace (c : Char) : Bool :=
  [(9 : Nat), 10, 11, 12, 13, 32, 160, 8232, 8233, 65279].any
    (fun n => c = Char.ofNat n)

/-- Split a character list on a separator character, like
`String.prototype.split` with a one-character separator. -/
def splitOnChar (sep : Char) : List Char → List (List Char)
  | [] => [[]]
  | c :: cs =>
    if c = sep then [] :: splitOnChar sep cs
    else
      match splitOnChar sep cs with
      | [] => [[c]]
      | p :: ps => (c :: p) :: ps

/-- JS `Number(string)` modelled for plain decimal literals: optional
whitespace, optional sign, `digits`, `digits.digits`, `digits.` or
`.digits`; the empty (or all-whitespace) string converts to 0; anything
else is NaN (`none`). Exotic forms (hex, exponent, `Infinity`) are outside
the model's scope and also map to `none`. -/
def parseJsNumber (s : String) : Option ℚ :=
  let t := ((s.data.dropWhile isJsSpace).reverse.dropWhile isJsSpace).reverse
  if t = [] then some 0
  else
    let neg := t.head? = some (Char.ofNat 45)
    let signed := neg || t.head? = some (Char.ofNat 43)
    let body := if signed then t.tail else t
    let sign : ℚ := if neg then -1 else 1
    match splitOnChar (Char.ofNat 46) body with
    | [i] =>
      if i ≠ [] && i.all Char.isDigit then some (sign * digitsVal i) else none
    | [i, f] =>
      if (i.all Char.isDigit && f.all Char.isDigit) && !(i = [] && f = []) then
        some (sign * ((digitsVal i : ℚ) + (digitsVal f : ℚ) / 10 ^ f.length))
      else none
    | _ => none

/-- One fractional decimal digit at a time (fuel-bounded), used to render a
number the way JS prints a finite decimal; trailing zeros never arise
because rendering stops when the remainder is zero. -/
def fracGo : Nat → ℚ → String
  | 0, _ => ""
  | fuel + 1, q =>
    if q = 0 then ""
    else
      let d : ℤ := (q * 10).floor
      String.singleton (Char.ofNat (48 + d.toNat)) ++ fracGo fuel (q * 10 - d)

/-- JS `Number.prototype.toString` modelled for integers and finite decimal
fractions (structured-field decimals have at most three fractional digits,
all within this scope; 20 fractional digits of fuel bound the rendering). -/
def numToString (q : ℚ) : String :=
  if q.den = 1 then toString q.num
  else
    (if q < 0 then "-" else "") ++ toString (|q|).floor ++ "." ++
      fracGo 20 (|q| - (|q|).floor)

/-- JS `.toString()` on a bare item: strings and tokens yield their text,
numbers their decimal rendering, booleans `"true"`/`"false"`. -/
def BareItem.toString : BareItem → String
  | .str s => s
  | .num q => numToString q
  | .bool b => if b then "true" else "false"
  | .tok s => s

/-- The HTTP token alphabet of the `TOKEN` character class in
`media-type.js`: letters, digits, and
`! # $ % ^ & * _ + \x7b \x7d | ' . \x60 ~ -`
(the braces, apostrophe and backtick are written by code point). -/
def isTokenChar (c : Char) : Bool :=
  c.isAlpha || c.isDigit ||
    [(33 : Nat), 35, 36, 37, 94, 38, 42, 95, 43, 123, 125, 124, 39, 46,
      96, 126, 45].any (fun n => c = Char.ofNat n)

/-- Source `split(mediaType)`: execute the anchored regular expression
`(TOKEN)/(TOKEN)` against the string (a whole-string match needs exactly one
slash separating two non-empty token-alphabet runs, since the token alphabet
excludes the slash) and return the two captured groups lowercased, or the
empty list when the string does not match. -/
def split (mediaType : String) : List String :=
  match splitOnChar (Char.ofNat 47) mediaType.data with
  | [t, s] =>
    if t ≠ [] && s ≠ [] && t.all isTokenChar && s.all isTokenChar then
      [String.mk (t.map Char.toLower), String.mk (s.map Char.toLower)]
    else []
  | _ => []

/-- Input conversion of `extractQuality`: a JS number is used directly, any
other bare item goes through `Number(q.toString())`; `none` is NaN. -/
def toNumber : BareItem → Option ℚ
  | .num q => some q
  | b => parseJsNumber b.toString

/-- Source `extractQuality(q)`: 1000 for an absent `q`; otherwise convert to a
number, score 1000 at exactly 1, `floor(q * 1000)` strictly between 0 and 1,
and 0 in every other case (NaN included, since NaN fails both
comparisons). -/
def extractQuality : Option BareItem → ℤ
  | none => 1000
  | some q =>
    match toNumber q with
    | none => 0
    | some qNum =>
      if qNum = 1 then 1000
      else if 0 < qNum ∧ qNum < 1 then (qNum * 1000).floor
      else 0

/-- Source `sortByQuality(a, b)`. -/
def sortByQuality (a b : Option BareItem) : ℤ :=
  extractQuality b - extractQuality a

/-- The decision chain of `sortByType` over the four destructured split
components. The components are `Option String` because destructuring a
failed split yields `undefined` on both positions; the JS `==` between such
components is exactly structural equality of the options. -/
def sortByTypeSplit (aType aSubtype bType bSubtype : Option String) : ℤ :=
  if aType = bType ∧ aSubtype = bSubtype then 0
  else if aType = some "*" ∧ aSubtype = some "*" then 1
  else if bType = some "*" ∧ bSubtype = some "*" then -1
  else if aSubtype = some "*" ∧ bSubtype = some "*" then 0
  else if aSubtype = some "*" then 1
  else if bSubtype = some "*" then -1
  else 0

/-- Source `sortByType(a, b)`: split both bare tokens and compare specificity. -/
def sortByType (a b : BareItem) : ℤ :=
  let sa := split a.toString
  let sb := split b.toString
  sortByTypeSplit sa[0]? sa[1]? sb[0]? sb[1]?

/-- Source `countQ(a)`. -/
def countQ (a : Bool) : ℤ :=
  if a then 1 else 0

/-- Source `sortByParameters(a, b)`:
`b.size - countQ(b.has("q")) - a.size + countQ(a.has("q"))`. -/
def sortByParameters (a b : Params) : ℤ :=
  (mapSize b : ℤ) - countQ (mapHas b "q") - (mapSize a : ℤ) + countQ (mapHas a "q")

/-- Source `comparator(a, b)`: the JS short-circuit `x || y || z` over numbers
returns the first non-zero discriminator. -/
def comparator (a b : Item) : ℤ :=
  let q := sortByQuality (mapGet a.2 "q") (mapGet b.2 "q")
  if q ≠ 0 then q
  else
    let t := sortByType a.1 b.1
    if t ≠ 0 then t
    else sortByParameters a.2 b.2

/-- Insert an item into an already-ordered list, after any item it ties
with, so that the overall sort is stable as ECMAScript requires. -/
def insertSorted (x : Item) : List Item → List Item
  | [] => [x]
  | y :: ys => if comparator x y < 0 then x :: y :: ys else y :: insertSorted x ys

/-- Source `sort(types)`: `types.slice().sort(comparator)`, modelled as a stable
insertion sort on a copy of the list. -/
def sort (types : List Item) : List Item :=
  types.foldl (fun acc x => insertSorted x acc) []

/-- The result of `contains`/`match`: a boolean, a JS `Map` of mismatched
parameters, or a thrown `TypeError`. -/
inductive MatchResult where
  | thrown
  | bool (b : Bool)
  | params (m : Params)
deriving DecidableEq, Repr

/-- JS `===` between two possibly-`undefined` parameter values:
`undefined === undefined` is true, `undefined` never equals a value, and
two bare items compare structurally. (JS tokens are objects compared by
reference; two distinct equal-text tokens would fall through to the
string-comparison branch of `contains` with the same final outcome, so
structural equality is observationally faithful here.) -/
def jsStrictEq : Option BareItem → Option BareItem → Bool
  | none, none => true
  | some a, some b => a = b
  | _, _ => false

/-- The loop body of `contains`: walk the requested keys; for `q` or a key
the allowed map has, compare by `===` and then by `.toString()` equality —
where calling `.toString()` on an `undefined` lookup throws — recording a
`\x7bkey: requestedValue\x7d` entry on disagreement; any other key returns
`false` at once; at the end return the mismatch map if non-empty, else
`true`. -/
def containsGo (req allowed : Params) : List String → Params → MatchResult
  | [], mis => if mis.length ≠ 0 then .params mis else .bool true
  | key :: rest, mis =>
    if key = "q" || mapHas allowed key then
      if jsStrictEq (mapGet req key) (mapGet allowed key) then
        containsGo req allowed rest mis
      else
        match mapGet req key, mapGet allowed key with
        | some rv, some av =>
          if rv.toString = av.toString then containsGo req allowed rest mis
          else containsGo req allowed rest (mapSet mis key rv)
        | _, _ => .thrown
    else .bool false

/-- Source `contains(req, allowed)`: the parameter-containment check of `match`. -/
def contains (req allowed : Params) : MatchResult :=
  containsGo req allowed (mapKeys req) []

/-- Source `match(req, allowed)`: split both bare tokens, require the directional
type and subtype compatibility (requested `*` wildcards, or equality of the
possibly-`undefined` components), then delegate to `contains`; a failed
guard returns `false`. Named `mtMatch` because `match` is a Lean keyword. -/
def mtMatch (req allowed : Item) : MatchResult :=
  let sa := split allowed.1.toString
  let sr := split req.1.toString
  let allowedType := sa[0]?
  let allowedSubtype := sa[1]?
  let reqType := sr[0]?
  let reqSubtype := sr[1]?
  if (reqType = some "*" ∨ allowedType = reqType) ∧
      (reqSubtype = some "*" ∨ allowedSubtype = reqSubtype) then
    contains req.2 allowed.2
  else .bool false

/-- The size of a parameter map with the `q` key excluded from the count. -/
def nonQSize (p : Params) : ℤ :=
  (mapSize p : ℤ) - countQ (mapHas p "q")

/-- The item parsed from `text/html;level=3;q=0.7` in the spec's running
example header. -/
def exHtmlLevel : Item :=
  (.tok "text/html", [("level", .num 3), ("q", .num (7 / 10))])

/-- The item parsed from `text/html;q=0.7`. -/
def exHtml : Item :=
  (.tok "text/html", [("q", .num (7 / 10))])

/-- The item parsed from `text/plain;q=0.5`. -/
def exPlain : Item :=
  (.tok "text/plain", [("q", .num (1 / 2))])

/-- The item parsed from `text/*;q=0.1`. -/
def exStar : Item :=
  (.tok "text/*", [("q", .num (1 / 10))])

/-! ## Theorems -/

/-- C1: the spec says a requested `q` parameter is always considered
satisfied, never appears in the mismatch map and the example
`match([["text","html"],\x7bq:0.5\x7d], [["text","html"],\x7b\x7d])`
returns `true`; the code instead reaches
`allowed.get("q").toString()` on `undefined` and throws a `TypeError`. -/
theorem c1_match_throws_on_unmatched_q :
    mtMatch (.tok "text/html", [("q", .num (1 / 2))]) (.tok "text/html", []) =
      .thrown := by
  decide

/-- C2: the spec says neither `sort` nor `match` ever throws; `match` does
throw when the requested item carries a `q` parameter, the allowed item has
none, and the type/subtype guard passes. -/
theorem c2_match_can_throw :
    mtMatch (.tok "text/plain", [("q", .num (3 / 10))]) (.tok "text/plain", []) =
      .thrown := by
  decide

/-- C5: the spec says the containment scan always ends by returning the
mismatch map or `true`; on a requested map holding `q` while the allowed map
lacks it, the scan instead throws before completing, even though every other
requested parameter agrees. -/
theorem c5_contains_throws_before_returning :
    contains [("a", .str "x"), ("q", .num (1 / 2))] [("a", .str "x")] =
      .thrown := by
  decide

/-- The splitter yields either no components or exactly a type/subtype pair. -/
theorem split_eq_nil_or_pair (s : String) :
    split s = [] ∨ ∃ t u, split s = [t, u] := by
  rcases h : splitOnChar (Char.ofNat 47) s.data with _ | ⟨t, _ | ⟨u, _ | ⟨v, vs⟩⟩⟩ <;>
    simp only [split, h]
  · first | exact Or.inl rfl | exact Or.inl trivial
  · first | exact Or.inl rfl | exact Or.inl trivial
  · split
    · exact Or.inr ⟨_, _, rfl⟩
    · exact Or.inl rfl
  · first | exact Or.inl rfl | exact Or.inl trivial

/-- C3 counterexample: the claim says a malformed token on either side makes
`match` return `false`; with malformed tokens on both sides the destructured
components are all `undefined`, `undefined == undefined` holds, and `match`
returns `true`. -/
theorem c3_both_malformed_counterexample :
    mtMatch (.tok "notamediatype", []) (.tok "&&&", []) = .bool true := by
  decide

/-- C3 amended: a malformed token yields no split components, and the
downstream checks treat the pair as incompatible whenever the other side did
split — `match` returns `false` when the requested token is malformed and
the allowed one is not, and when the allowed token is malformed while the
requested one splits into anything but a double wildcard. (When both sides
are malformed, or the requested token is `*/*`, the undefined or wildcarded
components pass the guard instead.) -/
theorem c3_one_sided_malformed_fails (req allowed : Item)
    (h : (split req.1.toString = [] ∧ split allowed.1.toString ≠ []) ∨
      (split allowed.1.toString = [] ∧
        ∃ t s, split req.1.toString = [t, s] ∧ (t ≠ "*" ∨ s ≠ "*"))) :
    mtMatch req allowed = .bool false := by
  rcases h with ⟨hr, ha⟩ | ⟨ha, t, s, hr, hts⟩
  · rcases split_eq_nil_or_pair allowed.1.toString with ha' | ⟨t, u, ha'⟩
    · exact absurd ha' ha
    · unfold mtMatch
      rw [hr, ha']
      rw [if_neg]
      rintro ⟨h1 | h1, -⟩ <;> simp at h1
  · unfold mtMatch
    rw [hr, ha]
    rw [if_neg]
    rintro ⟨h1, h2⟩
    rcases h1 with h1 | h1
    · rcases h2 with h2 | h2
      · simp at h1 h2
        rcases hts with hts | hts <;> [exact hts h1; exact hts h2]
      · simp at h2
    · simp at h1

/-- C3 amended, witnessed at a concrete pair: a well-formed requested token
against a malformed allowed token fails to match. -/
theorem c3_one_sided_malformed_fails_witness :
    mtMatch (.tok "text/html", []) ((.tok "bad&"), []) = .bool false :=
  c3_one_sided_malformed_fails (.tok "text/html", []) ((.tok "bad&"), [])
    (Or.inr ⟨by decide, "text", "html", by decide, Or.inl (by decide)⟩)

/-- Inserting with `insertSorted` only reorders: the result is a
permutation of pushing the element in front. -/
theorem insertSorted_perm (x : Item) (l : List Item) :
    (insertSorted x l).Perm (x :: l) := by
  induction l with
  | nil => exact List.Perm.refl _
  | cons y ys ih =>
    unfold insertSorted
    split
    · exact List.Perm.refl _
    · exact (ih.cons y).trans (List.Perm.swap x y ys)

/-- The insertion-sort fold keeps the multiset of items. -/
theorem sortFold_perm (l acc : List Item) :
    (l.foldl (fun acc x => insertSorted x acc) acc).Perm (acc ++ l) := by
  induction l generalizing acc with
  | nil => simp
  | cons x xs ih =>
    have h1 := ih (insertSorted x acc)
    have h2 : (insertSorted x acc ++ xs).Perm (acc ++ x :: xs) :=
      ((insertSorted_perm x acc).append_right xs).trans List.perm_middle.symm
    exact h1.trans h2

/-- C9: `sort` does not consume its input destructively and returns a
permutation of it: the output contains exactly the input items. -/
theorem c9_sort_is_permutation (types : List Item) :
    (sort types).Perm types := by
  have h := sortFold_perm types []
  simpa [sort] using h

/-- The quality discriminator negates when its arguments swap. -/
theorem sortByQuality_antisymm (a b : Option BareItem) :
    sortByQuality a b = -sortByQuality b a := by
  unfold sortByQuality; ring

/-- The parameter-count discriminator negates when its arguments swap. -/
theorem sortByParameters_antisymm (a b : Params) :
    sortByParameters a b = -sortByParameters b a := by
  unfold sortByParameters; ring

/-- The specificity decision chain negates when its arguments swap. -/
theorem sortByTypeSplit_antisymm (aT aS bT bS : Option String) :
    sortByTypeSplit aT aS bT bS = -sortByTypeSplit bT bS aT aS := by
  unfold sortByTypeSplit
  split_ifs <;> first | rfl | omega | (exfalso; simp_all [eq_comm])

/-- The specificity discriminator negates when its arguments swap. -/
theorem sortByType_antisymm (a b : BareItem) :
    sortByType a b = -sortByType b a := by
  unfold sortByType
  exact sortByTypeSplit_antisymm _ _ _ _

/-- C10: the comparator is antisymmetric — swapping the two items negates
the result — and each of the three chained discriminators (quality
difference, type/subtype specificity, non-`q` parameter count) individually
satisfies the same law. -/
theorem c10_comparator_antisymmetric (a b : Item) :
    comparator a b = -comparator b a ∧
    sortByQuality (mapGet a.2 "q") (mapGet b.2 "q") =
      -sortByQuality (mapGet b.2 "q") (mapGet a.2 "q") ∧
    sortByType a.1 b.1 = -sortByType b.1 a.1 ∧
    sortByParameters a.2 b.2 = -sortByParameters b.2 a.2 := by
  refine ⟨?_, sortByQuality_antisymm _ _, sortByType_antisymm _ _,
    sortByParameters_antisymm _ _⟩
  simp only [comparator]
  rw [sortByQuality_antisymm (mapGet a.2 "q") (mapGet b.2 "q"),
    sortByType_antisymm a.1 b.1, sortByParameters_antisymm a.2 b.2]
  split_ifs <;> omega

/-- The computable `Rat.floor`, which the embedding uses, is the floor of the
rational. -/
theorem ratFloor_eq_intFloor (a : ℚ) : a.floor = ⌊a⌋ := by
  rw [Rat.floor_def' a, Rat.floor_def]

/-- C4: the effective quality score is 1000 when `q` is absent, 1000 when
the value converts to exactly 1, `floor(value * 1000)` when the value lies
strictly between 0 and 1 (truncating, not rounding), and 0 for every other
value — non-positive, above 1, or non-numeric/unparsable. -/
theorem c4_quality_score :
    extractQuality none = 1000 ∧
    (∀ b : BareItem, toNumber b = some 1 → extractQuality (some b) = 1000) ∧
    (∀ (b : BareItem) (v : ℚ), toNumber b = some v → 0 < v → v < 1 →
      extractQuality (some b) = ⌊v * 1000⌋) ∧
    (∀ (b : BareItem) (v : ℚ), toNumber b = some v → v ≤ 0 →
      extractQuality (some b) = 0) ∧
    (∀ (b : BareItem) (v : ℚ), toNumber b = some v → 1 < v →
      extractQuality (some b) = 0) ∧
    (∀ b : BareItem, toNumber b = none → extractQuality (some b) = 0) := by
  refine ⟨rfl, ?_, ?_, ?_, ?_, ?_⟩
  · intro b hb; simp [extractQuality, hb]
  · intro b v hb h0 h1
    simp only [extractQuality, hb]
    rw [if_neg (fun h => absurd h (ne_of_lt h1)), if_pos ⟨h0, h1⟩]
    exact ratFloor_eq_intFloor _
  · intro b v hb hv
    simp only [extractQuality, hb]
    rw [if_neg (by rintro rfl; linarith), if_neg (by rintro ⟨h, -⟩; linarith)]
  · intro b v hb hv
    simp only [extractQuality, hb]
    rw [if_neg (by rintro rfl; linarith), if_neg (by rintro ⟨-, h⟩; linarith)]
  · intro b hb; simp [extractQuality, hb]

/-- C4 witness at concrete inputs: q=0.9999 scores 999 by truncation, q=0
and q=1.5 score 0, and an unparsable token value scores 0. -/
theorem c4_quality_score_witness :
    extractQuality (some (.num (9999 / 10000))) = 999 ∧
    extractQuality (some (.num 0)) = 0 ∧
    extractQuality (some (.num (3 / 2))) = 0 ∧
    extractQuality (some (.tok "abc")) = 0 :=
  ⟨(c4_quality_score.2.2.1 (.num (9999 / 10000)) (9999 / 10000) rfl
      (by norm_num) (by norm_num)).trans
      (by rw [Int.floor_eq_iff]; norm_num),
    c4_quality_score.2.2.2.1 (.num 0) 0 rfl le_rfl,
    c4_quality_score.2.2.2.2.1 (.num (3 / 2)) (3 / 2) rfl (by norm_num),
    c4_quality_score.2.2.2.2.2 (.tok "abc") (by decide)⟩

/-- C6: the type/subtype compatibility check of `match` is directional — it
succeeds exactly when (requested type is `*` or equals the allowed type) and
(requested subtype is `*` or equals the allowed subtype), after which
`match` proceeds to parameter containment; a wildcard on the allowed side is
never special-cased, so an allowed-side `*` matches only a literally equal
requested token. -/
theorem c6_directional_check (req allowed : Item) (rt rs at' as' : String)
    (hr : split req.1.toString = [rt, rs])
    (ha : split allowed.1.toString = [at', as']) :
    mtMatch req allowed =
      if (rt = "*" ∨ rt = at') ∧ (rs = "*" ∨ rs = as') then
        contains req.2 allowed.2
      else .bool false := by
  simp only [mtMatch, hr, ha, List.getElem?_cons_zero, List.getElem?_cons_succ,
    Option.some.injEq]
  simp only [eq_comm]

/-- C6 witness at a concrete pair: an allowed-side `*/*` does not wildcard,
so a concrete requested `text/html` fails against it. -/
theorem c6_directional_check_witness :
    mtMatch (.tok "text/html", []) (.tok "*/*", []) = .bool false :=
  (c6_directional_check (.tok "text/html", []) (.tok "*/*", [])
      "text" "html" "*" "*" (by decide) (by decide)).trans (by decide)

/-- C7: when quality ties, the specificity discriminator orders items such
that equal pairs tie, `*/*` sorts after any non-`*/*` item, two wildcard
subtypes (neither `*/*`) tie, a wildcard subtype sorts after a concrete
subtype, and all other distinct concrete pairs tie. -/
theorem c7_specificity_order (a b : BareItem) (at' as' bt bs : String)
    (hA : split a.toString = [at', as'])
    (hB : split b.toString = [bt, bs]) :
    (at' = bt ∧ as' = bs → sortByType a b = 0) ∧
    (at' = "*" ∧ as' = "*" ∧ ¬(bt = "*" ∧ bs = "*") → sortByType a b = 1) ∧
    (¬(at' = "*" ∧ as' = "*") ∧ bt = "*" ∧ bs = "*" → sortByType a b = -1) ∧
    (as' = "*" ∧ bs = "*" ∧ at' ≠ "*" ∧ bt ≠ "*" → sortByType a b = 0) ∧
    (as' = "*" ∧ bs ≠ "*" → sortByType a b = 1) ∧
    (as' ≠ "*" ∧ bs = "*" → sortByType a b = -1) ∧
    (as' ≠ "*" ∧ bs ≠ "*" ∧ ¬(at' = bt ∧ as' = bs) → sortByType a b = 0) := by
  have hT : sortByType a b =
      sortByTypeSplit (some at') (some as') (some bt) (some bs) := by
    simp only [sortByType, hA, hB, List.getElem?_cons_zero, List.getElem?_cons_succ]
  rw [hT]
  unfold sortByTypeSplit
  refine ⟨?_, ?_, ?_, ?_, ?_, ?_, ?_⟩ <;> intro h <;>
    split_ifs <;> first | rfl | omega | (exfalso; simp_all [eq_comm])

/-- C7 witness at a concrete pair: `*/*` sorts after `text/html` when the
specificity discriminator decides. -/
theorem c7_specificity_order_witness :
    sortByType (.tok "*/*") (.tok "text/html") = 1 :=
  (c7_specificity_order (.tok "*/*") (.tok "text/html") "*" "*" "text" "html"
      (by decide) (by decide)).2.1 ⟨rfl, rfl, by decide⟩

/-- The quality score of q=0.7 is 700. -/
theorem extractQuality_07 : extractQuality (some (.num (7 / 10))) = 700 := by
  simp only [extractQuality, toNumber]
  rw [if_neg (by norm_num), if_pos ⟨by norm_num, by norm_num⟩,
    ratFloor_eq_intFloor, Int.floor_eq_iff]
  norm_num

/-- The quality score of q=0.5 is 500. -/
theorem extractQuality_05 : extractQuality (some (.num (1 / 2))) = 500 := by
  simp only [extractQuality, toNumber]
  rw [if_neg (by norm_num), if_pos ⟨by norm_num, by norm_num⟩,
    ratFloor_eq_intFloor, Int.floor_eq_iff]
  norm_num

/-- The quality score of q=0.1 is 100. -/
theorem extractQuality_01 : extractQuality (some (.num (1 / 10))) = 100 := by
  simp only [extractQuality, toNumber]
  rw [if_neg (by norm_num), if_pos ⟨by norm_num, by norm_num⟩,
    ratFloor_eq_intFloor, Int.floor_eq_iff]
  norm_num

/-- Quality score of the `text/html;level=3;q=0.7` example item. -/
theorem quality_exHtmlLevel : extractQuality (mapGet exHtmlLevel.2 "q") = 700 := by
  rw [show mapGet exHtmlLevel.2 "q" = some (BareItem.num (7 / 10)) from rfl]
  exact extractQuality_07

/-- Quality score of the `text/html;q=0.7` example item. -/
theorem quality_exHtml : extractQuality (mapGet exHtml.2 "q") = 700 := by
  rw [show mapGet exHtml.2 "q" = some (BareItem.num (7 / 10)) from rfl]
  exact extractQuality_07

/-- Quality score of the `text/plain;q=0.5` example item. -/
theorem quality_exPlain : extractQuality (mapGet exPlain.2 "q") = 500 := by
  rw [show mapGet exPlain.2 "q" = some (BareItem.num (1 / 2)) from rfl]
  exact extractQuality_05

/-- Quality score of the `text/*;q=0.1` example item. -/
theorem quality_exStar : extractQuality (mapGet exStar.2 "q") = 100 := by
  rw [show mapGet exStar.2 "q" = some (BareItem.num (1 / 10)) from rfl]
  exact extractQuality_01

/-- Rewrite `comparator` through already-computed quality scores, leaving a
quality-free expression the kernel can evaluate. -/
theorem comparator_eval (a b : Item) (qa qb : ℤ)
    (ha : extractQuality (mapGet a.2 "q") = qa)
    (hb : extractQuality (mapGet b.2 "q") = qb) :
    comparator a b =
      if qb - qa ≠ 0 then qb - qa
      else if sortByType a.1 b.1 ≠ 0 then sortByType a.1 b.1
      else sortByParameters a.2 b.2 := by
  simp only [comparator, sortByQuality, ha, hb]

/-- C8: when both the quality and the specificity discriminators tie, the
comparator compares parameter-map sizes with the `q` key excluded from the
count on each side (more non-`q` parameters sorts first); and sorting the
four items of the spec's example header yields `text/html;level=3` first,
then `text/html`, then `text/plain`, then `text/*` last. -/
theorem c8_param_count_tiebreak :
    (∀ a b : Item,
      sortByQuality (mapGet a.2 "q") (mapGet b.2 "q") = 0 →
      sortByType a.1 b.1 = 0 →
      comparator a b = nonQSize b.2 - nonQSize a.2) ∧
    sort [exHtmlLevel, exHtml, exPlain, exStar] =
      [exHtmlLevel, exHtml, exPlain, exStar] := by
  constructor
  · intro a b hq ht
    simp only [comparator, hq, ht, ne_eq, not_true_eq_false, if_false]
    simp only [sortByParameters, nonQSize]
    ring
  · have c21 : comparator exHtml exHtmlLevel = 1 :=
      (comparator_eval exHtml exHtmlLevel 700 700 quality_exHtml
        quality_exHtmlLevel).trans (by decide)
    have c31 : comparator exPlain exHtmlLevel = 200 :=
      (comparator_eval exPlain exHtmlLevel 500 700 quality_exPlain
        quality_exHtmlLevel).trans (by decide)
    have c32 : comparator exPlain exHtml = 200 :=
      (comparator_eval exPlain exHtml 500 700 quality_exPlain
        quality_exHtml).trans (by decide)
    have c41 : comparator exStar exHtmlLevel = 600 :=
      (comparator_eval exStar exHtmlLevel 100 700 quality_exStar
        quality_exHtmlLevel).trans (by decide)
    have c42 : comparator exStar exHtml = 600 :=
      (comparator_eval exStar exHtml 100 700 quality_exStar
        quality_exHtml).trans (by decide)
    have c43 : comparator exStar exPlain = 400 :=
      (comparator_eval exStar exPlain 100 500 quality_exStar
        quality_exPlain).trans (by decide)
    simp only [sort, List.foldl, insertSorted, c21, c31, c32, c41, c42, c43]
    norm_num

/-- C8 witness: on the quality-and-specificity tie between the two
`text/html` example items the comparator equals the difference of the
non-`q` parameter counts. -/
theorem c8_param_count_tiebreak_witness :
    comparator exHtmlLevel exHtml = nonQSize exHtml.2 - nonQSize exHtmlLevel.2 :=
  c8_param_count_tiebreak.1 exHtmlLevel exHtml
    (by simp only [sortByQuality, quality_exHtmlLevel, quality_exHtml]; norm_num)
    (by decide)

end SfUtils
